import Mathlib

/-!
A shallow embedding of the session-orchestration server `src/server.py` of
iklobato/browser-mon.

Pure control flow is translated directly from the Python source.  Effects of
the operating system and of the network (port binding, process spawn and exit,
websocket connections) are supplied by explicit environment records, so each
handler becomes a total function from an environment and the shared server
state to an HTTP response and a new state.  The single `await asyncio.sleep(1)`
suspension point inside `create_session` is modelled by splitting the handler
into its two atomic halves, which lets interleavings of two overlapping
`create_session` calls be expressed as compositions of those halves.
-/

/-- A registered browser session (`class BrowserSession` in server.py).
`events` holds the CDP messages appended by the relay task, abstracted as
their raw payloads (`json.loads` is treated as the identity on payloads). -/
structure BrowserSession where
  session_id : String
  pid : Nat
  port : Nat
  created_at : String
  events : List String
  deriving DecidableEq

/-- The shared mutable state of the server: the module-level dicts
`browser_sessions` and `monitoring_tasks` (as association lists in insertion
order, as a Python dict iterates), together with the OS process table
restricted to the processes this server spawned: `(pid, alive)` pairs. -/
structure ServerState where
  browser_sessions : List (String × BrowserSession)
  monitoring_tasks : List (String × Nat)
  procs : List (Nat × Bool)
  deriving DecidableEq

/-- The empty server state at startup. -/
def emptyState : ServerState := ⟨[], [], []⟩

/-- An HTTP response as produced by the FastAPI layer: a status code and a
JSON-object body flattened to key/value pairs. -/
structure HTTPResponse where
  status : Nat
  body : List (String × String)
  deriving DecidableEq

/-- Look up a field of a response body (first occurrence, as in a JSON
object). -/
def bodyGet (r : HTTPResponse) (key : String) : Option String :=
  (r.body.find? (fun x => x.1 == key)).map Prod.snd

/-- `find_free_port`'s scan: try each candidate port in ascending order,
`fuel` candidates starting at `p`, returning the first on which an exclusive
bind succeeds (`portFree`). -/
def scanPorts (portFree : Nat → Bool) (p : Nat) : Nat → Option Nat
  | 0 => none
  | fuel + 1 => if portFree p then some p else scanPorts portFree (p + 1) fuel

/-- `find_free_port(start_port=9222, end_port=9322)` from server.py: scans
`range(start_port, end_port + 1)` and binds each candidate; raises `IOError`
(modelled as `Except.error` with the formatted message) when none binds. -/
def find_free_port (portFree : Nat → Bool) (start_port : Nat := 9222)
    (end_port : Nat := 9322) : Except String Nat :=
  match scanPorts portFree start_port (end_port + 1 - start_port) with
  | some p => Except.ok p
  | none =>
      Except.error ("No free ports in range " ++ toString start_port ++ "-"
        ++ toString end_port)

/-- The environment of one `create_session` call: the configuration read from
`os.environ`, the OS behaviour (which ports bind, whether `subprocess.Popen`
raises, the spawned pid, whether the process has exited when polled after the
one-second settle delay, and its captured output), and the fresh identifiers
produced during the call (`uuid.uuid4()`, `datetime.now()`, the
`asyncio.create_task` handle). -/
structure CreateEnv where
  cdp_host : String
  portFree : Nat → Bool
  spawnOk : Bool
  pid : Nat
  exitedDuringSettle : Bool
  stdoutAvailable : Bool
  capturedOutput : String
  session_id : String
  created_at : String
  task_id : Nat

/-- The `cdp_url` string returned to the client:
`f"ws://{cdp_host}:{port}"`. -/
def cdp_url_for (cdp_host : String) (port : Nat) : String :=
  "ws://" ++ cdp_host ++ ":" ++ toString port

/-- Data carried across `create_session`'s `await asyncio.sleep(1)`
suspension point: the local variables live at that point. -/
structure PendingLaunch where
  session_id : String
  port : Nat
  pid : Nat
  deriving DecidableEq

/-- First atomic half of `create_session` (server.py lines 108-142): generate
the session id, allocate a port, spawn the browser process (recording it in
the process table with its post-settle liveness), and start the log-reader
thread.  Runs without suspension, so no other handler interleaves with it.
An unhandled `IOError` from `find_free_port` surfaces as FastAPI's generic
500; a `Popen` failure as the explicit 500 `"Failed to start browser"`. -/
def create_phase1 (env : CreateEnv) (st : ServerState) :
    Except HTTPResponse (PendingLaunch × ServerState) :=
  match find_free_port env.portFree with
  | Except.error _ =>
      Except.error ⟨500, [("detail", "Internal Server Error")]⟩
  | Except.ok port =>
      if env.spawnOk then
        Except.ok (⟨env.session_id, port, env.pid⟩,
          { st with procs := st.procs ++ [(env.pid, !env.exitedDuringSettle)] })
      else
        Except.error ⟨500, [("detail", "Failed to start browser")]⟩

/-- Second atomic half of `create_session` (server.py lines 143-163), resumed
after the settle delay: poll the process; if it exited, answer 500 carrying
the drained output; otherwise register the session, start the monitoring
task, and answer with the session descriptor. -/
def create_phase2 (env : CreateEnv) (pl : PendingLaunch) (st : ServerState) :
    HTTPResponse × ServerState :=
  if env.exitedDuringSettle then
    (⟨500, [("detail",
        if env.stdoutAvailable then env.capturedOutput
        else "Process exited immediately")]⟩, st)
  else
    (⟨200, [("session_id", pl.session_id),
            ("cdp_url", cdp_url_for env.cdp_host pl.port),
            ("created_at", env.created_at)]⟩,
     { st with
        browser_sessions := st.browser_sessions
          ++ [(pl.session_id,
               ⟨pl.session_id, pl.pid, pl.port, env.created_at, []⟩)],
        monitoring_tasks := st.monitoring_tasks
          ++ [(pl.session_id, env.task_id)] })

/-- `create_session` (POST /sessions, server.py lines 107-163) run without
interleaving: phase 1 followed immediately by phase 2.  The route decorator
`@app.post("/sessions", response_model=SessionResponse)` passes no
`status_code`, so FastAPI answers a successful call with its default status
200. -/
def create_session (env : CreateEnv) (st : ServerState) :
    HTTPResponse × ServerState :=
  match create_phase1 env st with
  | Except.error r => (r, st)
  | Except.ok (pl, st1) => create_phase2 env pl st1

/-! ### Port allocation lemmas -/

theorem scanPorts_some (portFree : Nat → Bool) :
    ∀ fuel p q, scanPorts portFree p fuel = some q →
      p ≤ q ∧ q < p + fuel ∧ portFree q = true ∧
      ∀ r, p ≤ r → r < q → portFree r = false := by
  intro fuel
  induction fuel with
  | zero => intro p q h; simp [scanPorts] at h
  | succ n ih =>
      intro p q h
      by_cases hp : portFree p = true
      · simp [scanPorts, hp] at h
        subst h
        exact ⟨Nat.le_refl p, by omega, hp, fun r h1 h2 => by omega⟩
      · simp [scanPorts, hp] at h
        obtain ⟨h1, h2, h3, h4⟩ := ih (p + 1) q h
        refine ⟨by omega, by omega, h3, fun r hr1 hr2 => ?_⟩
        rcases Nat.eq_or_lt_of_le hr1 with hEq | hLt
        · subst hEq; exact Bool.eq_false_iff.mpr hp
        · exact h4 r hLt hr2

theorem scanPorts_none (portFree : Nat → Bool) :
    ∀ fuel p, (∀ r, p ≤ r → r < p + fuel → portFree r = false) →
      scanPorts portFree p fuel = none := by
  intro fuel
  induction fuel with
  | zero => intro p _; rfl
  | succ n ih =>
      intro p h
      have hp : portFree p = false := h p (Nat.le_refl p) (by omega)
      simp [scanPorts, hp]
      exact ih (p + 1) (fun r h1 h2 => h r (by omega) (by omega))

theorem find_free_port_ok_bounds (pf : Nat → Bool) (p : Nat)
    (h : find_free_port pf = Except.ok p) :
    9222 ≤ p ∧ p ≤ 9322 ∧ pf p = true ∧
    ∀ q, 9222 ≤ q → q < p → pf q = false := by
  unfold find_free_port at h
  cases hscan : scanPorts pf 9222 (9322 + 1 - 9222) with
  | none => rw [hscan] at h; cases h
  | some q =>
      rw [hscan] at h
      cases h
      obtain ⟨h1, h2, h3, h4⟩ := scanPorts_some pf _ _ _ hscan
      exact ⟨h1, by omega, h3, h4⟩

/-- A `create_session` environment in which everything succeeds: every port
binds, the spawn succeeds, and the process is still alive after the settle
delay. -/
def envOk : CreateEnv :=
  { cdp_host := "host.docker.internal", portFree := fun _ => true,
    spawnOk := true, pid := 100, exitedDuringSettle := false,
    stdoutAvailable := true, capturedOutput := "",
    session_id := "11111111-1111-1111-1111-111111111111",
    created_at := "2025-01-01T00:00:00", task_id := 1 }

/-! ### Claim theorems about creation -/

/-- C1: on a `create_session` call in which allocation, launch and the
liveness check all succeed, the response body is exactly the three fields
`session_id`, `cdp_url`, `created_at`, but the HTTP status is FastAPI's
default 200, not the 201 the specification (and the repository's own client,
which treats any status other than 201 as failure) requires: the route
decorator passes no `status_code`. -/
theorem create_session_success_status_is_200 :
    (create_session envOk emptyState).1.status = 200 ∧
    (create_session envOk emptyState).1.status ≠ 201 ∧
    (create_session envOk emptyState).1.body.map Prod.fst
      = ["session_id", "cdp_url", "created_at"] :=
  ⟨rfl, by decide, rfl⟩

/-- No port in the fixed 9222-9322 range binds. -/
def noFreePort (pf : Nat → Bool) : Prop :=
  ∀ p, 9222 ≤ p → p ≤ 9322 → pf p = false

/-- C2: when `create_session` fails — either with `ResourceExhausted`
(no port in the range binds) or with `LaunchFailed` (the spawned process has
exited when polled after the settle delay) — the call answers an error
status, the session registry and the monitoring-task map are unchanged, no
process spawned by the call is left running, and in the `LaunchFailed` case
the error detail carries the process's captured output. -/
theorem create_session_failure_is_clean (env : CreateEnv) (st : ServerState)
    (h : noFreePort env.portFree ∨
         (env.spawnOk = true ∧ env.exitedDuringSettle = true)) :
    (create_session env st).1.status = 500 ∧
    (create_session env st).2.browser_sessions = st.browser_sessions ∧
    (create_session env st).2.monitoring_tasks = st.monitoring_tasks ∧
    (∀ q ∈ (create_session env st).2.procs, q.2 = true → q ∈ st.procs) ∧
    (env.spawnOk = true → env.exitedDuringSettle = true →
      env.stdoutAvailable = true →
      (∃ p, find_free_port env.portFree = Except.ok p) →
      (create_session env st).1.body = [("detail", env.capturedOutput)]) := by
  cases hfp : find_free_port env.portFree with
  | error msg =>
      refine ⟨?_, ?_, ?_, ?_, ?_⟩ <;>
        simp [create_session, create_phase1, hfp]
  | ok port =>
      obtain ⟨hb1, hb2, hb3, _⟩ := find_free_port_ok_bounds env.portFree port hfp
      rcases h with hnone | ⟨hsp, hex⟩
      · exact absurd hb3 (by simp [hnone port hb1 hb2])
      · have hcs : create_session env st
            = (⟨500, [("detail",
                if env.stdoutAvailable then env.capturedOutput
                else "Process exited immediately")]⟩,
               { st with procs := st.procs ++ [(env.pid, false)] }) := by
          simp [create_session, create_phase1, hfp, hsp, create_phase2, hex]
        rw [hcs]
        refine ⟨rfl, rfl, rfl, ?_, ?_⟩
        · intro q hq hqt
          rcases List.mem_append.mp hq with hl | hr
          · exact hl
          · simp at hr
            rw [hr] at hqt
            cases hqt
        · intro _ _ h3 _
          simp [h3]

/-- A `create_session` environment in which the spawned browser exits during
the settle delay, leaving captured diagnostic output. -/
def envExit : CreateEnv :=
  { envOk with exitedDuringSettle := true, capturedOutput := "chrome crashed" }

theorem create_session_failure_is_clean_witness :
    (envExit.spawnOk = true ∧ envExit.exitedDuringSettle = true) ∧
    (create_session envExit emptyState).1.status = 500 ∧
    (create_session envExit emptyState).2.browser_sessions = [] ∧
    (create_session envExit emptyState).1.body
      = [("detail", "chrome crashed")] := by
  have h := create_session_failure_is_clean envExit emptyState (Or.inr ⟨rfl, rfl⟩)
  exact ⟨⟨rfl, rfl⟩, h.1, h.2.1, h.2.2.2.2 rfl rfl rfl ⟨9222, rfl⟩⟩

/-- C3: `find_free_port` scans the inclusive range 9222-9322 in ascending
order and returns the first port on which a bind succeeds; it fails with an
error when no port in the range binds; and every successful `create_session`
answer carries a `cdp_url` whose port lies in that range and whose host is
the configured `CDP_HOST`. -/
theorem find_free_port_range_and_cdp_url :
    (∀ (pf : Nat → Bool) (p : Nat), find_free_port pf = Except.ok p →
        9222 ≤ p ∧ p ≤ 9322 ∧ pf p = true ∧
        ∀ q, 9222 ≤ q → q < p → pf q = false) ∧
    (∀ pf : Nat → Bool, (∀ p, 9222 ≤ p → p ≤ 9322 → pf p = false) →
        ∃ msg, find_free_port pf = Except.error msg) ∧
    (∀ (env : CreateEnv) (st : ServerState),
        (create_session env st).1.status = 200 →
        ∃ p, 9222 ≤ p ∧ p ≤ 9322 ∧
          bodyGet (create_session env st).1 "cdp_url"
            = some (cdp_url_for env.cdp_host p)) := by
  refine ⟨find_free_port_ok_bounds, ?_, ?_⟩
  · intro pf hnone
    have hscan := scanPorts_none pf (9322 + 1 - 9222) 9222
      (fun r h1 h2 => hnone r h1 (by omega))
    exact ⟨"No free ports in range " ++ toString 9222 ++ "-" ++ toString 9322,
      by unfold find_free_port; rw [hscan]⟩
  · intro env st hstatus
    cases hfp : find_free_port env.portFree with
    | error msg => simp [create_session, create_phase1, hfp] at hstatus
    | ok port =>
        obtain ⟨hb1, hb2, _, _⟩ := find_free_port_ok_bounds env.portFree port hfp
        by_cases hsp : env.spawnOk = true
        · by_cases hex : env.exitedDuringSettle = true
          · simp [create_session, create_phase1, hfp, hsp, create_phase2,
              hex] at hstatus
          · refine ⟨port, hb1, hb2, ?_⟩
            simp [create_session, create_phase1, hfp, hsp, create_phase2,
              hex, bodyGet, List.find?]
        · simp [create_session, create_phase1, hfp, hsp] at hstatus

theorem find_free_port_range_and_cdp_url_witness :
    (find_free_port (fun _ => true) = Except.ok 9222 ∧
      9222 ≤ 9222 ∧ 9222 ≤ 9322) ∧
    (∃ msg, find_free_port (fun _ => false) = Except.error msg) ∧
    (∃ p, 9222 ≤ p ∧ p ≤ 9322 ∧
      bodyGet (create_session envOk emptyState).1 "cdp_url"
        = some (cdp_url_for envOk.cdp_host p)) := by
  have h1 := find_free_port_range_and_cdp_url.1 (fun _ => true) 9222 rfl
  have h2 := find_free_port_range_and_cdp_url.2.1 (fun _ => false)
    (fun p _ _ => rfl)
  have h3 := find_free_port_range_and_cdp_url.2.2 envOk emptyState rfl
  exact ⟨⟨rfl, h1.1, h1.2.1⟩, h2, h3⟩

/-! ### The handshake-and-relay task (`monitor_browser_session`) -/

/-- What one run of the discovery loop (server.py lines 70-79) produced:
the version-info payload of the first successful connection attempt (if
any), how many connection attempts were made, and how many times the loop
slept `asyncio.sleep(0.5)` (once after every failed attempt). -/
structure DiscoveryOutcome where
  result : Option String
  attempts : Nat
  sleeps : Nat
  deriving DecidableEq

/-- The `for _ in range(20)` discovery loop: at each remaining iteration it
makes one connection attempt (`connect i`, abstracting
`websockets.connect` + `recv` of attempt number `i`); success breaks out of
the loop, failure is caught and followed by one half-second sleep. -/
def discoveryLoop (connect : Nat → Option String) :
    Nat → Nat → DiscoveryOutcome
  | 0, _ => ⟨none, 0, 0⟩
  | fuel + 1, i =>
      match connect i with
      | some r => ⟨some r, 1, 0⟩
      | none =>
          let o := discoveryLoop connect fuel (i + 1)
          ⟨o.result, o.attempts + 1, o.sleeps + 1⟩

/-- The discovery phase as run by `monitor_browser_session`: 20 attempts
starting at attempt 0. -/
def discover (connect : Nat → Option String) : DiscoveryOutcome :=
  discoveryLoop connect 20 0

/-- The version-info endpoint the discovery loop polls:
`f"ws://localhost:{port}/json/version"`. -/
def version_info_url (port : Nat) : String :=
  "ws://localhost:" ++ toString port ++ "/json/version"

/-- Python's `str.replace(pat, repl)` over explicit character lists: replace
the leftmost, non-overlapping occurrences of `pat`, scanning left to right.
`skip` counts matched characters still to be consumed after a replacement
has been emitted.  (An empty `pat` is treated as matching nowhere; the
server only ever replaces the non-empty literal `"localhost"`.) -/
def pyReplaceAux (pat repl : List Char) : List Char → Nat → List Char
  | [], _ => []
  | _ :: cs, skip + 1 => pyReplaceAux pat repl cs skip
  | c :: cs, 0 =>
      if pat.isPrefixOf (c :: cs) && !pat.isEmpty then
        repl ++ pyReplaceAux pat repl cs (pat.length - 1)
      else
        c :: pyReplaceAux pat repl cs 0

/-- Python's `s.replace(pat, repl)`. -/
def pyReplace (pat repl s : List Char) : List Char :=
  pyReplaceAux pat repl s 0

/-- The rewrite applied to the browser's self-advertised debugger endpoint
(server.py lines 82-84):
`browser_info.get("webSocketDebuggerUrl", "").replace("localhost", cdp_host)`
— a literal substring replacement, not a URL parse. -/
def rewrite_debugger_url (cdp_host url : String) : String :=
  ⟨pyReplace "localhost".data cdp_host.data url.data⟩

/-- The host component of a `ws://host:port/path` endpoint URL (the
advertised debugger endpoints all carry the `ws://` scheme): the characters
after the scheme and up to the first `:` or `/`.  Used to state what a
host-component rewrite would have to produce. -/
def hostOf (url : String) : String :=
  ⟨(url.data.drop 5).takeWhile (fun c => c != ':' && c != '/')⟩

/-- What one `await asyncio.wait_for(websocket.recv(), timeout=1.0)` in the
drain loop produced. -/
inductive RecvOutcome where
  | timeout
  | message (payload : String)
  | connError
  deriving DecidableEq

/-- One iteration of the drain loop (server.py lines 92-102), recording the
registry membership of the owning session id at the two points where the
loop reads it: at the `while session_id in browser_sessions` check, and at
the inner `if session_id in browser_sessions` check run after the receive
returned (the registry may change while the receive is suspended). -/
structure DrainStep where
  member_before : Bool
  recv : RecvOutcome
  member_after : Bool
  deriving DecidableEq

/-- The drain loop over a schedule of iterations: while the session is still
registered, wait for a message; a timeout re-checks membership and
continues; a received message is appended to the buffer only if the session
is still registered at the inner check; any other error breaks out. -/
def drainLoop : List DrainStep → List String → List String
  | [], events => events
  | step :: rest, events =>
      if step.member_before then
        match step.recv with
        | RecvOutcome.timeout => drainLoop rest events
        | RecvOutcome.message p =>
            drainLoop rest (if step.member_after then events ++ [p] else events)
        | RecvOutcome.connError => events
      else events

/-- The environment of one relay task: the configured `CDP_HOST`, the
outcome of each discovery connection attempt against the version-info URL,
the `webSocketDebuggerUrl` field that `json.loads` extracts from the
version-info payload, whether the connection to the rewritten debugger URL
succeeds, and the schedule of drain-loop iterations. -/
structure MonitorEnv where
  cdp_host : String
  connectResult : String → Nat → Option String
  debuggerUrlOf : String → String
  subscribeOk : String → Bool
  drainTrace : List DrainStep

/-- Apply `f` to the event buffer of the session registered under
`session_id` (the relay task's only write to shared state). -/
def updateEvents (session_id : String) (f : List String → List String)
    (st : ServerState) : ServerState :=
  { st with browser_sessions := st.browser_sessions.map (fun x =>
      if x.1 == session_id then (x.1, { x.2 with events := f x.2.events })
      else x) }

/-- `monitor_browser_session` (server.py lines 65-104) as a state
transformer.  If every discovery attempt fails, the task logs and returns
(`for`/`else` branch) without touching the registry.  Otherwise it rewrites
the advertised debugger URL, connects to it, sends the three fire-and-forget
enable commands, and drains messages into the session's event buffer; every
connection error is caught inside the task. -/
def monitor_browser_session (env : MonitorEnv) (session_id : String)
    (port : Nat) (st : ServerState) : ServerState :=
  match (discover (env.connectResult (version_info_url port))).result with
  | none => st
  | some info =>
      let url := rewrite_debugger_url env.cdp_host (env.debuggerUrlOf info)
      if env.subscribeOk url then
        updateEvents session_id (drainLoop env.drainTrace) st
      else st

theorem discoveryLoop_counts (connect : Nat → Option String) :
    ∀ fuel i,
      (discoveryLoop connect fuel i).attempts ≤ fuel ∧
      (discoveryLoop connect fuel i).attempts =
        (discoveryLoop connect fuel i).sleeps +
          (if (discoveryLoop connect fuel i).result.isSome then 1 else 0) := by
  intro fuel
  induction fuel with
  | zero => intro i; simp [discoveryLoop]
  | succ n ih =>
      intro i
      cases hc : connect i with
      | some r => simp [discoveryLoop, hc]
      | none =>
          have h := ih (i + 1)
          cases hr : (discoveryLoop connect n (i + 1)).result with
          | none => simp [discoveryLoop, hc, hr] at h ⊢; omega
          | some v => simp [discoveryLoop, hc, hr] at h ⊢; omega

/-- C4: the discovery phase of a relay task makes at most 20 connection
attempts; it sleeps half a second exactly once after each failed attempt
(so the attempt count is the sleep count, plus one when an attempt
succeeded), for a total wait of at most 10 seconds (10000 ms). -/
theorem discovery_attempts_bounded (connect : Nat → Option String) :
    (discover connect).attempts ≤ 20 ∧
    (discover connect).attempts =
      (discover connect).sleeps +
        (if (discover connect).result.isSome then 1 else 0) ∧
    500 * (discover connect).sleeps ≤ 10000 := by
  obtain ⟨h1, h2⟩ := discoveryLoop_counts connect 20 0
  refine ⟨h1, h2, ?_⟩
  cases hr : (discoveryLoop connect 20 0).result with
  | none => simp [discover, hr] at h2 ⊢; omega
  | some v => simp [discover, hr] at h2 ⊢; omega

/-- C5: a relay task that exhausts every discovery attempt without
connecting returns normally (the `for`/`else` branch is a plain `return`;
in the embedding the task is a total function) and leaves the server state
— in particular the session registry — unchanged, so the owning session
stays registered. -/
theorem discovery_exhausted_leaves_registry_unchanged (env : MonitorEnv)
    (session_id : String) (port : Nat) (st : ServerState)
    (h : (discover (env.connectResult (version_info_url port))).result
      = none) :
    monitor_browser_session env session_id port st = st ∧
    ∀ x ∈ st.browser_sessions,
      x ∈ (monitor_browser_session env session_id port st).browser_sessions
    := by
  have hm : monitor_browser_session env session_id port st = st := by
    unfold monitor_browser_session
    rw [h]
  exact ⟨hm, fun x hx => by rw [hm]; exact hx⟩

/-- A server state holding exactly one registered session and its
monitoring task and live process. -/
def oneSessionState : ServerState :=
  ⟨[("11111111-1111-1111-1111-111111111111",
     ⟨"11111111-1111-1111-1111-111111111111", 100, 9222,
      "2025-01-01T00:00:00", []⟩)],
   [("11111111-1111-1111-1111-111111111111", 1)],
   [(100, true)]⟩

/-- A relay-task environment in which every discovery attempt fails. -/
def envNoDiscovery : MonitorEnv :=
  ⟨"host.docker.internal", fun _ _ => none, fun s => s, fun _ => true, []⟩

theorem discovery_exhausted_leaves_registry_unchanged_witness :
    (discover (envNoDiscovery.connectResult (version_info_url 9222))).result
      = none ∧
    monitor_browser_session envNoDiscovery
      "11111111-1111-1111-1111-111111111111" 9222 oneSessionState
      = oneSessionState := by
  have h := discovery_exhausted_leaves_registry_unchanged envNoDiscovery
    "11111111-1111-1111-1111-111111111111" 9222 oneSessionState rfl
  exact ⟨rfl, h.1⟩

theorem pyReplaceAux_of_not_infix (pat repl : List Char) :
    ∀ s : List Char, ¬ (pat <:+: s) → pyReplaceAux pat repl s 0 = s := by
  intro s
  induction s with
  | nil => intro _; rfl
  | cons c cs ih =>
      intro h
      have hpre : pat.isPrefixOf (c :: cs) = false := by
        cases hp : pat.isPrefixOf (c :: cs)
        · rfl
        · exact absurd (List.isPrefixOf_iff_prefix.mp hp).isInfix h
      simp [pyReplaceAux, hpre]
      exact ih (fun hi => h (List.infix_cons hi))

/-- C6 counterexample: the browser may advertise its debugger endpoint with
the loopback host written `127.0.0.1`; the relay task's rewrite — a literal
`replace("localhost", cdp_host)` — then leaves the URL untouched, so the
host component of the URL actually connected to is not the configured
`CDP_HOST`. -/
theorem rewrite_leaves_loopback_host_cex :
    rewrite_debugger_url "host.docker.internal"
        "ws://127.0.0.1:9222/devtools/browser/1"
      = "ws://127.0.0.1:9222/devtools/browser/1" ∧
    hostOf (rewrite_debugger_url "host.docker.internal"
        "ws://127.0.0.1:9222/devtools/browser/1")
      ≠ "host.docker.internal" :=
  ⟨rfl, by decide⟩

/-- C6 amended: the relay task replaces every occurrence of the literal
substring `"localhost"` in the advertised URL with `CDP_HOST`; in
particular, when the advertised URL has the usual shape
`ws://localhost:<rest>` with no further occurrence of `"localhost"` in
`<rest>`, this rewrites exactly the host component and leaves the rest of
the URL unchanged. -/
theorem rewrite_replaces_localhost_literal (cdp_host : String)
    (rest : List Char) (h : ¬ ("localhost".data <:+: rest)) :
    rewrite_debugger_url cdp_host ⟨"ws://localhost:".data ++ rest⟩
      = ⟨"ws://".data ++ cdp_host.data ++ ':' :: rest⟩ := by
  have htail := pyReplaceAux_of_not_infix "localhost".data cdp_host.data rest h
  have hlist : pyReplace "localhost".data cdp_host.data
      ("ws://localhost:".data ++ rest)
      = "ws://".data ++ cdp_host.data ++ ':' :: rest := by
    show 'w' :: 's' :: ':' :: '/' :: '/' ::
        (cdp_host.data ++
          (':' :: pyReplaceAux "localhost".data cdp_host.data rest 0))
      = 'w' :: 's' :: ':' :: '/' :: '/' :: (cdp_host.data ++ (':' :: rest))
    rw [htail]
  exact congrArg String.mk hlist

theorem rewrite_replaces_localhost_literal_witness :
    ¬ ("localhost".data <:+: ['9']) ∧
    rewrite_debugger_url "h" ⟨"ws://localhost:".data ++ ['9']⟩
      = ⟨"ws://".data ++ "h".data ++ ':' :: ['9']⟩ :=
  ⟨by decide, rewrite_replaces_localhost_literal "h" ['9'] (by decide)⟩

theorem drainLoop_extends :
    ∀ (tr : List DrainStep) (events : List String),
      events <+: drainLoop tr events := by
  intro tr
  induction tr with
  | nil => intro events; exact List.prefix_refl events
  | cons step rest ih =>
      intro events
      cases hb : step.member_before with
      | false => simp [drainLoop, hb]
      | true =>
          cases hr : step.recv with
          | timeout => simpa [drainLoop, hb, hr] using ih events
          | message p =>
              cases ha : step.member_after with
              | false => simpa [drainLoop, hb, hr, ha] using ih events
              | true =>
                  simp [drainLoop, hb, hr, ha]
                  exact (List.prefix_append events [p]).trans
                    (ih (events ++ [p]))
          | connError => simp [drainLoop, hb, hr]

theorem drainLoop_append_removed :
    ∀ (tr t2 : List DrainStep) (events : List String),
      (∀ s ∈ t2, s.member_before = false) →
      drainLoop (tr ++ t2) events = drainLoop tr events := by
  intro tr
  induction tr with
  | nil =>
      intro t2 events h
      cases t2 with
      | nil => rfl
      | cons s rest =>
          have hs : s.member_before = false := h s (List.mem_cons_self s rest)
          simp [drainLoop, hs]
  | cons step rest ih =>
      intro t2 events h
      cases hb : step.member_before with
      | false => simp [drainLoop, hb]
      | true =>
          cases hr : step.recv with
          | timeout =>
              simp only [List.cons_append, drainLoop, hb, hr, if_true]
              exact ih t2 events h
          | message p =>
              simp only [List.cons_append, drainLoop, hb, hr, if_true]
              exact ih t2 _ h
          | connError =>
              simp [drainLoop, hb, hr]

/-- C8: over any schedule of drain-loop iterations the event buffer only
grows (the initial buffer stays a prefix of the final one, so its length is
monotonically non-decreasing); once the session has been removed from the
registry, no further iteration appends anything; and a message whose
receive was in flight at removal time (registered at the `while` check,
gone at the inner check) is discarded, not appended. -/
theorem drain_buffer_monotone_and_stops_after_removal
    (tr t2 : List DrainStep) (events : List String) (p : String)
    (h : ∀ s ∈ t2, s.member_before = false) :
    (events <+: drainLoop tr events) ∧
    events.length ≤ (drainLoop tr events).length ∧
    drainLoop (tr ++ t2) events = drainLoop tr events ∧
    drainLoop [⟨true, RecvOutcome.message p, false⟩] events = events :=
  ⟨drainLoop_extends tr events, (drainLoop_extends tr events).length_le,
   drainLoop_append_removed tr t2 events h, rfl⟩

theorem drain_buffer_monotone_and_stops_after_removal_witness :
    (∀ s ∈ [(⟨false, RecvOutcome.timeout, false⟩ : DrainStep)],
      s.member_before = false) ∧
    (["a"] <+: drainLoop [⟨true, RecvOutcome.message "b", true⟩] ["a"]) ∧
    drainLoop ([⟨true, RecvOutcome.message "b", true⟩]
        ++ [(⟨false, RecvOutcome.timeout, false⟩ : DrainStep)]) ["a"]
      = drainLoop [⟨true, RecvOutcome.message "b", true⟩] ["a"] ∧
    drainLoop [⟨true, RecvOutcome.message "m", false⟩] ["a"] = ["a"] := by
  have h := drain_buffer_monotone_and_stops_after_removal
    [⟨true, RecvOutcome.message "b", true⟩]
    [⟨false, RecvOutcome.timeout, false⟩] ["a"] "m" (by decide)
  exact ⟨by decide, h.1, h.2.2.1, h.2.2.2⟩

/-! ### Port uniqueness across sessions -/

/-- No two sessions registered under distinct ids hold the same port. -/
def distinctPorts (st : ServerState) : Prop :=
  ∀ a ∈ st.browser_sessions, ∀ b ∈ st.browser_sessions,
    a.1 ≠ b.1 → a.2.port ≠ b.2.port

/-- A `create_session` environment for the first of two overlapping calls:
every port is free (in particular, the launched browser has not yet bound
its debugging port when the second call probes). -/
def envOverlapA : CreateEnv :=
  { cdp_host := "host.docker.internal", portFree := fun _ => true,
    spawnOk := true, pid := 100, exitedDuringSettle := false,
    stdoutAvailable := true, capturedOutput := "", session_id := "sess-A",
    created_at := "2025-01-01T00:00:00", task_id := 1 }

/-- The second overlapping call's environment: it probes while the first
call is suspended in `await asyncio.sleep(1)` and before the first browser
has bound its port, so it sees the same free ports. -/
def envOverlapB : CreateEnv :=
  { envOverlapA with pid := 101, session_id := "sess-B", task_id := 2 }

/-- The state reached when two `create_session` calls overlap across the
settle-delay suspension point: A's first half, then B's first half (while A
sleeps), then A's second half, then B's second half.  Both halves are the
atomic blocks of the single-threaded asyncio scheduler. -/
def overlappedCreatesState : ServerState :=
  match create_phase1 envOverlapA emptyState with
  | Except.error _ => emptyState
  | Except.ok (plA, st1) =>
      match create_phase1 envOverlapB st1 with
      | Except.error _ => st1
      | Except.ok (plB, st2) =>
          (create_phase2 envOverlapB plB (create_phase2 envOverlapA plA st2).2).2

/-- C7 counterexample: with both calls interleaved across the settle delay
and the first browser not yet bound to its probed port, both calls allocate
port 9222 and both register, so two distinct concurrently registered
sessions hold the same port. -/
theorem overlapping_creates_share_port_cex :
    ("sess-A", (⟨"sess-A", 100, 9222, "2025-01-01T00:00:00", []⟩ :
        BrowserSession)) ∈ overlappedCreatesState.browser_sessions ∧
    ("sess-B", (⟨"sess-B", 101, 9222, "2025-01-01T00:00:00", []⟩ :
        BrowserSession)) ∈ overlappedCreatesState.browser_sessions ∧
    ¬ distinctPorts overlappedCreatesState := by
  refine ⟨by decide, by decide, ?_⟩
  intro h
  exact absurd
    (h ("sess-A", ⟨"sess-A", 100, 9222, "2025-01-01T00:00:00", []⟩)
      (by decide)
      ("sess-B", ⟨"sess-B", 101, 9222, "2025-01-01T00:00:00", []⟩)
      (by decide) (by decide))
    (by decide)

/-- C7 amended: port uniqueness holds for serialized `create_session` calls
whenever every already-registered session's process is still holding
(bound to) its port when the new call probes, so its port does not bind.
It is not guaranteed for overlapping calls: `find_free_port` binds only a
probe socket and closes it, so two calls interleaved across the settle
delay can allocate the same port before either browser binds it. -/
theorem serialized_create_preserves_distinct_ports (env : CreateEnv)
    (st : ServerState)
    (hbound : ∀ a ∈ st.browser_sessions, env.portFree a.2.port = false)
    (hdist : distinctPorts st) :
    distinctPorts (create_session env st).2 := by
  cases hfp : find_free_port env.portFree with
  | error msg =>
      have hsame : (create_session env st).2 = st := by
        simp [create_session, create_phase1, hfp]
      rw [hsame]; exact hdist
  | ok port =>
      obtain ⟨_, _, hb3, _⟩ := find_free_port_ok_bounds env.portFree port hfp
      by_cases hsp : env.spawnOk = true
      · by_cases hex : env.exitedDuringSettle = true
        · have hsess : (create_session env st).2.browser_sessions
              = st.browser_sessions := by
            simp [create_session, create_phase1, hfp, hsp, create_phase2, hex]
          intro a ha b hb
          rw [hsess] at ha hb
          exact hdist a ha b hb
        · have hsess : (create_session env st).2.browser_sessions
              = st.browser_sessions ++ [(env.session_id,
                 ⟨env.session_id, env.pid, port, env.created_at, []⟩)] := by
            simp [create_session, create_phase1, hfp, hsp, create_phase2, hex]
          intro a ha b hb hneq
          rw [hsess] at ha hb
          rcases List.mem_append.mp ha with ha' | ha' <;>
            rcases List.mem_append.mp hb with hb' | hb'
          · exact hdist a ha' b hb' hneq
          · simp only [List.mem_singleton] at hb'
            have hbport : b.2.port = port := by rw [hb']
            intro hpp
            rw [hbport] at hpp
            have hba := hbound a ha'
            rw [hpp] at hba
            rw [hba] at hb3
            cases hb3
          · simp only [List.mem_singleton] at ha'
            have haport : a.2.port = port := by rw [ha']
            intro hpp
            rw [haport] at hpp
            have hbb := hbound b hb'
            rw [← hpp] at hbb
            rw [hbb] at hb3
            cases hb3
          · simp only [List.mem_singleton] at ha' hb'
            exact absurd (by rw [ha', hb']) hneq
      · have hsame : (create_session env st).2 = st := by
          simp [create_session, create_phase1, hfp, hsp]
        rw [hsame]; exact hdist

theorem serialized_create_preserves_distinct_ports_witness :
    (∀ a ∈ emptyState.browser_sessions, envOk.portFree a.2.port = false) ∧
    distinctPorts emptyState ∧
    distinctPorts (create_session envOk emptyState).2 := by
  have h := serialized_create_preserves_distinct_ports envOk emptyState
    (by intro a ha; cases ha) (by intro a ha; cases ha)
  exact ⟨(by intro a ha; cases ha), (by intro a ha; cases ha), h⟩

/-! ### Process liveness, delete, and shutdown -/

/-- `psutil.pid_exists` against the tracked process table: the pid is
present and the process still alive (a killed and reaped process is gone
from the table's point of view). -/
def pid_exists (procs : List (Nat × Bool)) (pid : Nat) : Bool :=
  match procs with
  | [] => false
  | q :: rest => if q.1 = pid then q.2 else pid_exists rest pid

/-- `is_process_running(pid)` (server.py lines 215-219): returns
`psutil.pid_exists(pid)`, and `False` when that call raises (the bare
`except`). -/
def is_process_running (procs : List (Nat × Bool)) (raises : Bool)
    (pid : Nat) : Bool :=
  if raises then false else pid_exists procs pid

/-- Killing a pid: mark it dead in the process table. -/
def setDead (procs : List (Nat × Bool)) (pid : Nat) : List (Nat × Bool) :=
  procs.map (fun q => if q.1 = pid then (q.1, false) else q)

/-- OS behaviour during one `delete_session` call: whether the
`psutil.pid_exists` probe raises, and whether `os.kill(pid, SIGTERM)`
raises (both are caught by the handler's `try`/`except`). -/
structure DeleteEnv where
  checkRaises : Bool
  killRaises : Bool

/-- `delete_session` (DELETE /sessions/{id}, server.py lines 180-199):
404 when the id is unknown; otherwise best-effort SIGTERM inside
`try`/`except`, unconditional removal of the monitoring-task entry and the
session record, and a success body. -/
def delete_session (env : DeleteEnv) (session_id : String)
    (st : ServerState) : HTTPResponse × ServerState :=
  match st.browser_sessions.find? (fun x => x.1 == session_id) with
  | none => (⟨404, [("detail", "Session not found")]⟩, st)
  | some x =>
      (⟨200, [("status", "success"),
              ("message", "Session " ++ session_id ++ " terminated")]⟩,
       ⟨st.browser_sessions.filter (fun y => y.1 != session_id),
        st.monitoring_tasks.filter (fun y => y.1 != session_id),
        if is_process_running st.procs env.checkRaises x.2.pid
            && !env.killRaises then
          setDead st.procs x.2.pid
        else st.procs⟩)

/-- OS behaviour during `shutdown_event`, per pid. -/
structure ShutdownEnv where
  checkRaises : Nat → Bool
  killRaises : Nat → Bool

/-- One iteration of `shutdown_event`'s loop over the registered sessions:
SIGKILL the session's process if the (possibly raising) liveness probe says
it is running and the kill itself does not raise; both failure modes are
caught and only logged. -/
def shutdownKillStep (env : ShutdownEnv) (ps : List (Nat × Bool))
    (x : String × BrowserSession) : List (Nat × Bool) :=
  if is_process_running ps (env.checkRaises x.2.pid) x.2.pid
      && !(env.killRaises x.2.pid) then
    setDead ps x.2.pid
  else ps

/-- `shutdown_event` (server.py lines 222-235): iterate over a snapshot of
the registry, force-kill each process and cancel each monitoring task, then
clear both maps. -/
def shutdown_event (env : ShutdownEnv) (st : ServerState) : ServerState :=
  ⟨[], [], st.browser_sessions.foldl (shutdownKillStep env) st.procs⟩

theorem find?_filter_key_ne {α : Type} (k : String) (l : List (String × α)) :
    (l.filter (fun y => y.1 != k)).find? (fun y => y.1 == k) = none := by
  rw [List.find?_eq_none]
  intro x hx
  obtain ⟨_, hpx⟩ := List.mem_filter.mp hx
  simp only [bne_iff_ne, ne_eq] at hpx
  simp [hpx]

/-- C10: for a registered session id, `delete_session` answers success and
removes both the session record and the monitoring-task entry, whatever the
OS does: a raising liveness probe or a raising SIGTERM is caught, logged
and never surfaced, and never prevents deregistration. -/
theorem delete_always_removes_and_succeeds (env : DeleteEnv)
    (session_id : String) (st : ServerState) (x : String × BrowserSession)
    (h : st.browser_sessions.find? (fun y => y.1 == session_id) = some x) :
    (delete_session env session_id st).1.status = 200 ∧
    ("status", "success") ∈ (delete_session env session_id st).1.body ∧
    (delete_session env session_id st).2.browser_sessions.find?
      (fun y => y.1 == session_id) = none ∧
    (delete_session env session_id st).2.monitoring_tasks.find?
      (fun y => y.1 == session_id) = none := by
  unfold delete_session
  rw [h]
  exact ⟨rfl, by simp, find?_filter_key_ne session_id st.browser_sessions,
    find?_filter_key_ne session_id st.monitoring_tasks⟩

theorem delete_always_removes_and_succeeds_witness :
    oneSessionState.browser_sessions.find?
        (fun y => y.1 == "11111111-1111-1111-1111-111111111111")
      = some ("11111111-1111-1111-1111-111111111111",
          ⟨"11111111-1111-1111-1111-111111111111", 100, 9222,
           "2025-01-01T00:00:00", []⟩) ∧
    (delete_session ⟨false, true⟩ "11111111-1111-1111-1111-111111111111"
        oneSessionState).1.status = 200 ∧
    (delete_session ⟨false, true⟩ "11111111-1111-1111-1111-111111111111"
        oneSessionState).2.browser_sessions.find?
        (fun y => y.1 == "11111111-1111-1111-1111-111111111111") = none ∧
    (delete_session ⟨false, true⟩ "11111111-1111-1111-1111-111111111111"
        oneSessionState).2.monitoring_tasks.find?
        (fun y => y.1 == "11111111-1111-1111-1111-111111111111") = none := by
  have h := delete_always_removes_and_succeeds ⟨false, true⟩
    "11111111-1111-1111-1111-111111111111" oneSessionState
    ("11111111-1111-1111-1111-111111111111",
     ⟨"11111111-1111-1111-1111-111111111111", 100, 9222,
      "2025-01-01T00:00:00", []⟩) rfl
  exact ⟨rfl, h.1, h.2.2.1, h.2.2.2⟩

theorem pid_exists_setDead_self (pid : Nat) :
    ∀ ps : List (Nat × Bool), pid_exists (setDead ps pid) pid = false := by
  intro ps
  induction ps with
  | nil => rfl
  | cons a l ih =>
      have hsd : setDead (a :: l) pid
          = (if a.1 = pid then (a.1, false) else a) :: setDead l pid := rfl
      rw [hsd]
      by_cases hap : a.1 = pid
      · rw [if_pos hap]
        show (if a.1 = pid then false else pid_exists (setDead l pid) pid)
          = false
        rw [if_pos hap]
      · rw [if_neg hap]
        show (if a.1 = pid then a.2 else pid_exists (setDead l pid) pid)
          = false
        rw [if_neg hap]
        exact ih

theorem pid_exists_setDead_of_false (pid q : Nat) :
    ∀ ps : List (Nat × Bool), pid_exists ps q = false →
      pid_exists (setDead ps pid) q = false := by
  intro ps
  induction ps with
  | nil => intro _; rfl
  | cons a l ih =>
      intro h
      have hcons : pid_exists (a :: l) q
          = if a.1 = q then a.2 else pid_exists l q := rfl
      rw [hcons] at h
      have hsd : setDead (a :: l) pid
          = (if a.1 = pid then (a.1, false) else a) :: setDead l pid := rfl
      rw [hsd]
      by_cases hap : a.1 = pid
      · rw [if_pos hap]
        show (if a.1 = q then false else pid_exists (setDead l pid) q)
          = false
        by_cases haq : a.1 = q
        · rw [if_pos haq]
        · rw [if_neg haq]
          rw [if_neg haq] at h
          exact ih h
      · rw [if_neg hap]
        show (if a.1 = q then a.2 else pid_exists (setDead l pid) q) = false
        by_cases haq : a.1 = q
        · rw [if_pos haq]
          rw [if_pos haq] at h
          exact h
        · rw [if_neg haq]
          rw [if_neg haq] at h
          exact ih h

theorem shutdownKillStep_kills (env : ShutdownEnv) (ps : List (Nat × Bool))
    (x : String × BrowserSession)
    (hc : env.checkRaises x.2.pid = false)
    (hk : env.killRaises x.2.pid = false) :
    pid_exists (shutdownKillStep env ps x) x.2.pid = false := by
  unfold shutdownKillStep is_process_running
  rw [hc, hk]
  cases hp : pid_exists ps x.2.pid with
  | true => simp [hp, pid_exists_setDead_self]
  | false => simp [hp]

theorem shutdownKillStep_preserves (env : ShutdownEnv)
    (ps : List (Nat × Bool)) (x : String × BrowserSession) (q : Nat)
    (h : pid_exists ps q = false) :
    pid_exists (shutdownKillStep env ps x) q = false := by
  unfold shutdownKillStep
  split
  · exact pid_exists_setDead_of_false _ _ _ h
  · exact h

theorem foldl_killStep_preserves (env : ShutdownEnv) :
    ∀ (l : List (String × BrowserSession)) (ps : List (Nat × Bool)) (q : Nat),
      pid_exists ps q = false →
      pid_exists (l.foldl (shutdownKillStep env) ps) q = false := by
  intro l
  induction l with
  | nil => intro ps q h; exact h
  | cons a l ih =>
      intro ps q h
      rw [List.foldl_cons]
      exact ih _ q (shutdownKillStep_preserves env ps a q h)

/-- C9: when the per-pid liveness probe and SIGKILL calls raise no error,
`shutdown_event` leaves the session registry and the monitoring-task map
empty, and every process tracked by a session registered at the start of
the call is no longer alive. -/
theorem shutdown_clears_registry_and_kills (env : ShutdownEnv)
    (st : ServerState)
    (hc : ∀ pid, env.checkRaises pid = false)
    (hk : ∀ pid, env.killRaises pid = false) :
    (shutdown_event env st).browser_sessions = [] ∧
    (shutdown_event env st).monitoring_tasks = [] ∧
    ∀ x ∈ st.browser_sessions,
      pid_exists (shutdown_event env st).procs x.2.pid = false := by
  refine ⟨rfl, rfl, ?_⟩
  show ∀ x ∈ st.browser_sessions,
    pid_exists (st.browser_sessions.foldl (shutdownKillStep env) st.procs)
      x.2.pid = false
  have main : ∀ (l : List (String × BrowserSession)) (ps : List (Nat × Bool)),
      ∀ x ∈ l, pid_exists (l.foldl (shutdownKillStep env) ps) x.2.pid
        = false := by
    intro l
    induction l with
    | nil => intro ps x hx; cases hx
    | cons a l ih =>
        intro ps x hx
        rw [List.foldl_cons]
        rcases List.mem_cons.mp hx with rfl | hx'
        · exact foldl_killStep_preserves env l _ _
            (shutdownKillStep_kills env ps x (hc x.2.pid) (hk x.2.pid))
        · exact ih _ x hx'
  exact main st.browser_sessions st.procs

theorem shutdown_clears_registry_and_kills_witness :
    (∀ pid, (ShutdownEnv.mk (fun _ => false) (fun _ => false)).checkRaises
      pid = false) ∧
    (shutdown_event ⟨fun _ => false, fun _ => false⟩
      oneSessionState).browser_sessions = [] ∧
    (shutdown_event ⟨fun _ => false, fun _ => false⟩
      oneSessionState).monitoring_tasks = [] ∧
    pid_exists (shutdown_event ⟨fun _ => false, fun _ => false⟩
      oneSessionState).procs 100 = false := by
  have h := shutdown_clears_registry_and_kills
    ⟨fun _ => false, fun _ => false⟩ oneSessionState
    (fun _ => rfl) (fun _ => rfl)
  refine ⟨fun _ => rfl, h.1, h.2.1, ?_⟩
  exact h.2.2 ("11111111-1111-1111-1111-111111111111",
    ⟨"11111111-1111-1111-1111-111111111111", 100, 9222,
     "2025-01-01T00:00:00", []⟩) (by decide)
